import Mathlib

/-!
Shallow embedding of the fritter-frontend backend (users, freets, upvotes)
and its REST route handlers, together with theorems checking the repository's
specification against the code.

Conventions of the embedding:
- MongoDB ObjectIds are modelled as `Nat`.
- A `Date` used only as a timestamp is a `Nat`; the user birthday / join
  date, whose year/month/day components the code inspects, is a `SimpleDate`.
- `await Model.find...` and in-place document mutation followed by `save()`
  become explicit state passing over a `DB` value holding the three
  collections as lists.
- A JavaScript runtime crash (a method call on `null`) is modelled by
  returning `none` from an `Option`-valued operation.
-/

/-- Calendar date as the JS code reads it: `getFullYear`, `getMonth`
(0-based) and `getDate` (day of month, 1-based). -/
structure SimpleDate where
  year : Int
  month : Nat
  day : Nat
deriving Repr, DecidableEq

/-- `User` document (src/server/user/model.ts). -/
structure User where
  uid : Nat
  username : String
  password : String
  dateJoined : SimpleDate
  birthday : SimpleDate
  underage : Bool
  upvotedFreets : List Nat
deriving Repr, DecidableEq

/-- `Freet` document: author reference, content, self-flag marker and
flag-reason list (freet/model.ts is not under src/; fields are those the
routes in src/ read: `_id`, `authorId`, `content`, `selfFlagged`). -/
structure Freet where
  fid : Nat
  authorId : Nat
  content : String
  selfFlagged : Bool
  flagReasons : List String
  dateCreated : Nat
deriving Repr, DecidableEq

/-- `Upvote` document (upvote/model.ts in src/unnamed/part_000). -/
structure Upvote where
  uvid : Nat
  freetId : Nat
  authorId : Nat
  dateCreated : Nat
deriving Repr, DecidableEq

/-- The whole store: one list per collection. -/
structure DB where
  users : List User
  freets : List Freet
  upvotes : List Upvote
deriving Repr, DecidableEq

/-- Minimal JSON values, enough to state response shapes. -/
inductive Json where
  | str : String → Json
  | arr : List Json → Json
  | obj : List (String × Json) → Json
deriving Repr

/-- An HTTP response: status code and JSON body. -/
structure Resp where
  status : Nat
  body : Json
deriving Repr

/-- Every middleware failure in the code responds `res.status(s).json({error: ...})`. -/
def errResp (status : Nat) (e : Json) : Resp :=
  { status := status, body := Json.obj [("error", e)] }

/-- Does a JSON body have the `\x7bmessage, <entity>\x7d` success-envelope shape:
an object with a `message` field? -/
def isMessageEnvelope : Json → Bool
  | Json.obj fields => fields.any (fun p => p.1 = "message")
  | _ => false

/-- Does a JSON body have the `\x7berror\x7d` failure-envelope shape? -/
def isErrorEnvelope : Json → Bool
  | Json.obj fields => fields.any (fun p => p.1 = "error")
  | _ => false

/-! ### JavaScript array primitives used by the code -/

/-- JS `Array.prototype.indexOf`: index of the first occurrence, `-1` if absent. -/
def jsIndexOf : List Nat → Nat → Int
  | [], _ => -1
  | a :: rest, x =>
    if a = x then 0
    else
      let r := jsIndexOf rest x
      if r = -1 then -1 else r + 1

/-- JS `Array.prototype.splice(start, 1)`: a negative `start` counts from the
end (clamped to 0), a too-large `start` is clamped to the length; one element
at the resulting position is removed (none when the position is the length). -/
def jsSpliceOne (l : List Nat) (start : Int) : List Nat :=
  let len : Int := l.length
  let actual : Nat := (if start < 0 then max (len + start) 0 else min start len).toNat
  l.take actual ++ l.drop (actual + 1)

/-- The composite `l.splice(l.indexOf(x), 1)` appearing in
`UpvoteCollection.deleteOne` and `UpvoteCollection.deleteManyByFreetId`. -/
def spliceOutFreet (l : List Nat) (x : Nat) : List Nat :=
  jsSpliceOne l (jsIndexOf l x)

theorem jsIndexOf_of_not_mem {l : List Nat} {x : Nat} (h : x ∉ l) :
    jsIndexOf l x = -1 := by
  induction l with
  | nil => rfl
  | cons a rest ih =>
    simp only [List.mem_cons, not_or] at h
    have hax : ¬ a = x := fun hh => h.1 hh.symm
    simp [jsIndexOf, hax, ih h.2]

theorem jsIndexOf_of_mem {l : List Nat} {x : Nat} (h : x ∈ l) :
    0 ≤ jsIndexOf l x ∧ jsIndexOf l x < l.length := by
  induction l with
  | nil => simp at h
  | cons a rest ih =>
    by_cases hax : a = x
    · simp [jsIndexOf, hax]
    · have hx : x ∈ rest := by
        rcases List.mem_cons.mp h with h1 | h1
        · exact absurd h1.symm hax
        · exact h1
      obtain ⟨h0, hlt⟩ := ih hx
      have hne : jsIndexOf rest x ≠ -1 := by omega
      simp only [jsIndexOf, if_neg hax, if_neg hne]
      constructor
      · omega
      · simp only [List.length_cons]
        push_cast
        omega

theorem jsSpliceOne_nonneg (l : List Nat) (s : Int) (h0 : 0 ≤ s)
    (h1 : s ≤ l.length) :
    jsSpliceOne l s = l.take s.toNat ++ l.drop (s.toNat + 1) := by
  simp only [jsSpliceOne]
  rw [if_neg (by omega)]
  have hmin : (min s (l.length : Int)).toNat = s.toNat := by omega
  rw [hmin]

theorem jsSpliceOne_neg_one (l : List Nat) : jsSpliceOne l (-1) = l.dropLast := by
  unfold jsSpliceOne
  cases l with
  | nil => rfl
  | cons a rest =>
    have hlen : ((((a :: rest).length : Int) + -1) ⊔ 0).toNat = rest.length := by
      simp only [List.length_cons]
      omega
    simp only [if_pos (by omega : (-1 : Int) < 0), hlen]
    rw [List.dropLast_eq_take]
    have hdrop : (a :: rest).drop (rest.length + 1) = [] := by
      apply List.drop_eq_nil_of_le
      simp
    rw [hdrop, List.append_nil]
    simp

theorem spliceOutFreet_of_not_mem {l : List Nat} {x : Nat} (h : x ∉ l) :
    spliceOutFreet l x = l.dropLast := by
  unfold spliceOutFreet
  rw [jsIndexOf_of_not_mem h, jsSpliceOne_neg_one]

theorem spliceOutFreet_of_mem {l : List Nat} {x : Nat} (h : x ∈ l) :
    spliceOutFreet l x = l.erase x := by
  induction l with
  | nil => simp at h
  | cons a rest ih =>
    by_cases hax : a = x
    · subst hax
      have h1 : jsIndexOf (a :: rest) a = 0 := by simp [jsIndexOf]
      unfold spliceOutFreet
      rw [h1, jsSpliceOne_nonneg _ _ (by omega) (by positivity)]
      simp [List.erase_cons_head]
    · have hx : x ∈ rest := by
        rcases List.mem_cons.mp h with h1 | h1
        · exact absurd h1.symm hax
        · exact h1
      obtain ⟨h0, hlt⟩ := jsIndexOf_of_mem hx
      have hne : ¬ jsIndexOf rest x = -1 := by omega
      have hstep : jsIndexOf (a :: rest) x = jsIndexOf rest x + 1 := by
        simp only [jsIndexOf, if_neg hax, if_neg hne]
      unfold spliceOutFreet
      rw [hstep, jsSpliceOne_nonneg _ _ (by omega) (by simp; omega)]
      have htn : (jsIndexOf rest x + 1).toNat = (jsIndexOf rest x).toNat + 1 := by
        omega
      rw [htn, List.take_succ_cons, List.drop_succ_cons]
      have hrest : rest.take (jsIndexOf rest x).toNat ++
          rest.drop ((jsIndexOf rest x).toNat + 1) = rest.erase x := by
        rw [← ih hx]
        unfold spliceOutFreet
        rw [jsSpliceOne_nonneg _ _ h0 (le_of_lt hlt)]
      rw [List.cons_append, hrest, List.erase_cons_tail]
      simp [hax]

/-! ### User collection (src/unnamed/part_001) -/

/-- `UserCollection.findOneByUserId`: `UserModel.findOne(\x7b_id: userId\x7d)`. -/
def UserCollection.findOneByUserId (db : DB) (userId : Nat) : Option User :=
  db.users.find? (fun u => u.uid = userId)

/-- Mutating the document returned by `findOneByUserId` and calling `save()`:
the stored user with that id gets the new `upvotedFreets` list. -/
def saveUpvotedFreets (users : List User) (uid : Nat) (g : List Nat → List Nat) :
    List User :=
  users.map (fun u => if u.uid = uid then { u with upvotedFreets := g u.upvotedFreets } else u)

/-- `calculateAge` (src/unnamed/part_001 lines 57-65): year difference,
decremented when the current month precedes the birthday month, or the months
are equal and the current day of month precedes the birthday's. -/
def calculateAge (today birthday : SimpleDate) : Int :=
  let age := today.year - birthday.year
  let month : Int := (today.month : Int) - (birthday.month : Int)
  if month < 0 ∨ (month = 0 ∧ today.day < birthday.day) then age - 1 else age

/-- `UserCollection.addOne`: computes `underage = (calculateAge(birthday) < 18)`,
starts with an empty `upvotedFreets` array, and saves the new user.
`today` stands for the `new Date()` taken inside the function; `newId` for the
ObjectId MongoDB assigns. -/
def UserCollection.addOne (db : DB) (newId : Nat) (today : SimpleDate)
    (username password : String) (birthday : SimpleDate) : DB × User :=
  let age := calculateAge today birthday
  let user : User :=
    { uid := newId, username := username, password := password,
      dateJoined := today, birthday := birthday,
      underage := decide (age < 18), upvotedFreets := [] }
  ({ db with users := db.users ++ [user] }, user)

/-- JS truthiness of an optional string field (`undefined` and `""` are falsy),
as tested by `if (userDetails.password)` / `if (userDetails.username)`. -/
def jsTruthyStr : Option String → Bool
  | none => false
  | some s => !(s == "")

/-- `UserCollection.updateOne`: finds the user, overwrites `password` and/or
`username` when the corresponding field of `userDetails` is truthy, saves.
Returns `none` when no user has the id (the source would then crash setting a
field of `null`). -/
def UserCollection.updateOne (db : DB) (userId : Nat)
    (newPassword newUsername : Option String) : Option (DB × User) :=
  match UserCollection.findOneByUserId db userId with
  | none => none
  | some u =>
    let u1 := if jsTruthyStr newPassword
      then { u with password := newPassword.getD u.password } else u
    let u2 := if jsTruthyStr newUsername
      then { u1 with username := newUsername.getD u1.username } else u1
    some ({ db with
            users := db.users.map (fun v => if v.uid = userId then u2 else v) },
          u2)

/-- Result object of a mongoose `deleteOne`/`deleteMany` call. The driver
always returns such an object; the `Option` records that the surrounding
code's `!== null` test is a test against a value that is never `null`. -/
structure DeleteResult where
  acknowledged : Bool
  deletedCount : Nat
deriving Repr, DecidableEq

/-- Remove the first user document matching `\x7b_id: userId\x7d`. -/
def eraseFirstUserById : List User → Nat → List User
  | [], _ => []
  | u :: rest, i => if u.uid = i then rest else u :: eraseFirstUserById rest i

/-- `UserModel.deleteOne(\x7b_id: userId\x7d)`: deletes the first matching document
and returns a result object (never `null`). -/
def userModelDeleteOne (users : List User) (userId : Nat) :
    List User × Option DeleteResult :=
  let users' := eraseFirstUserById users userId
  (users', some { acknowledged := true, deletedCount := users.length - users'.length })

/-- `UserCollection.deleteOne`: runs the model delete and returns
`user !== null` on the result object. -/
def UserCollection.deleteOne (db : DB) (userId : Nat) : DB × Bool :=
  let deleted := userModelDeleteOne db.users userId
  ({ db with users := deleted.1 }, deleted.2.isSome)

/-! ### Upvote collection (src/unnamed/part_000) -/

/-- `UpvoteCollection.addOne`: builds the new upvote, pushes the freet id onto
the author's `upvotedFreets` and saves the author, then saves the upvote.
`none` models the crash when `findOneByUserId` returns `null`. `newId` and
`date` stand for the assigned ObjectId and `new Date()`. -/
def UpvoteCollection.addOne (db : DB) (freetId authorId newId date : Nat) :
    Option (DB × Upvote) :=
  let upvote : Upvote :=
    { uvid := newId, freetId := freetId, authorId := authorId, dateCreated := date }
  match UserCollection.findOneByUserId db authorId with
  | none => none
  | some _ =>
    some ({ db with
            users := saveUpvotedFreets db.users authorId (fun l => l ++ [freetId]),
            upvotes := db.upvotes ++ [upvote] },
          upvote)

/-- Remove the first upvote document matching `\x7b_id: upvoteId\x7d`. -/
def eraseFirstUpvoteById : List Upvote → Nat → List Upvote
  | [], _ => []
  | uv :: rest, i => if uv.uvid = i then rest else uv :: eraseFirstUpvoteById rest i

/-- `UpvoteModel.deleteOne(\x7b_id: upvoteId\x7d)`: deletes the first matching
document and returns a result object (never `null`). -/
def upvoteModelDeleteOne (upvotes : List Upvote) (upvoteId : Nat) :
    List Upvote × Option DeleteResult :=
  let upvotes' := eraseFirstUpvoteById upvotes upvoteId
  (upvotes', some { acknowledged := true, deletedCount := upvotes.length - upvotes'.length })

/-- `UpvoteCollection.deleteOne` (part_000 lines 93-102): splices the freet id
out of the author's `upvotedFreets` (at `indexOf`, which is `-1` when absent),
saves the author, deletes the upvote document, and returns `upvote !== null`
on the result object. `none` models the crash when the author id is unknown. -/
def UpvoteCollection.deleteOne (db : DB) (upvoteId authorId freetId : Nat) :
    Option (DB × Bool) :=
  match UserCollection.findOneByUserId db authorId with
  | none => none
  | some _ =>
    let db1 :=
      { db with
        users := saveUpvotedFreets db.users authorId (fun l => spliceOutFreet l freetId) }
    let deleted := upvoteModelDeleteOne db1.upvotes upvoteId
    some ({ db1 with upvotes := deleted.1 }, deleted.2.isSome)

/-- `UpvoteCollection.deleteManyByAuthorId` (part_000 lines 109-119): if the
author exists, reset their `upvotedFreets` to the empty array; then delete all
upvotes by the author. -/
def UpvoteCollection.deleteManyByAuthorId (db : DB) (authorId : Nat) : DB :=
  let users' :=
    match UserCollection.findOneByUserId db authorId with
    | some _ => saveUpvotedFreets db.users authorId (fun _ => [])
    | none => db.users
  { db with users := users',
            upvotes := (db.upvotes.filter (fun uv => !(uv.authorId = authorId : Bool))) }

/-- `UpvoteCollection.deleteManyByFreetId` (part_000 lines 126-134): splices
the freet id out of the ONE given author's `upvotedFreets` (at `indexOf`),
saves that author, then deletes all upvote documents for the freet. `none`
models the crash when the author id is unknown. -/
def UpvoteCollection.deleteManyByFreetId (db : DB) (freetId authorId : Nat) :
    Option DB :=
  match UserCollection.findOneByUserId db authorId with
  | none => none
  | some _ =>
    some { db with
           users := saveUpvotedFreets db.users authorId
             (fun l => spliceOutFreet l freetId),
           upvotes := db.upvotes.filter (fun uv => !(uv.freetId = freetId : Bool)) }

/-- `UpvoteCollection.findAll`: all upvotes (the source's sort key
`dateModified` does not exist on upvotes, so the stored order stands). -/
def UpvoteCollection.findAll (db : DB) : List Upvote :=
  db.upvotes

/-! ### Freet collection and guards missing from src/ (modelled from the spec) -/

/-- Modelled from the spec: `FreetCollection.findAll` (freet/collection.ts is
not under src/) — "list freets": all stored freets. -/
def FreetCollection.findAll (db : DB) : List Freet :=
  db.freets

/-- Modelled from the spec: `FreetCollection.findAllUnflagged` (freet/collection.ts
is not under src/) — "only freets with no self-flag are returned". -/
def FreetCollection.findAllUnflagged (db : DB) : List Freet :=
  db.freets.filter (fun f => !f.selfFlagged)

/-- Modelled from the spec: `FreetCollection.findOne` (freet/collection.ts is
not under src/) — the freet with the given id, if any. -/
def FreetCollection.findOne (db : DB) (freetId : Nat) : Option Freet :=
  db.freets.find? (fun f => f.fid = freetId)

/-- Modelled from the spec: `FreetCollection.addOne` (freet/collection.ts is
not under src/) — single insert of a freet with author reference, content and
the flag-reason list; the self-flag marker is set when flag reasons were
supplied at creation. -/
def FreetCollection.addOne (db : DB) (authorId : Nat) (content : String)
    (flagReasons : List String) (newId date : Nat) : DB × Freet :=
  let freet : Freet :=
    { fid := newId, authorId := authorId, content := content,
      selfFlagged := !flagReasons.isEmpty, flagReasons := flagReasons,
      dateCreated := date }
  ({ db with freets := db.freets ++ [freet] }, freet)

/-- Modelled from the spec: `FreetCollection.deleteOne` (freet/collection.ts is
not under src/) — "remove the Freet record". -/
def FreetCollection.deleteOne (db : DB) (freetId : Nat) : DB :=
  { db with freets := db.freets.filter (fun f => !(f.fid = freetId : Bool)) }

/-- Modelled from the spec: `freetValidator.isFreetExists` (freet/middleware.ts
is not under src/) — 404 when no freet has the given id. -/
def isFreetExistsCheck (db : DB) (freetId : Nat) : Option Resp :=
  if (FreetCollection.findOne db freetId).isSome then none
  else some (errResp 404 (Json.str "Freet does not exist."))

/-- Modelled from the spec: `userValidator.isUserLoggedIn` (user/middleware.ts
is not under src/) — 403 when there is no session user. -/
def isUserLoggedInCheck (session : Option Nat) : Option Resp :=
  match session with
  | some _ => none
  | none => some (errResp 403 (Json.str "You must be logged in."))

/-- Modelled from the spec: `userValidator.isUserAdult` (user/middleware.ts is
not under src/) — authorization failure (403) when the session user's
`underage` flag is set; `none` in the outer option models the crash when the
session user id matches no user. -/
def isUserAdultCheck (db : DB) (userId : Nat) : Option (Option Resp) :=
  match UserCollection.findOneByUserId db userId with
  | none => none
  | some u =>
    if u.underage then some (some (errResp 403 (Json.str "Underage users cannot view flagged Freets.")))
    else some none

/-- Modelled from the spec: `freetValidator.isValidFreetModifier`
(freet/middleware.ts is not under src/) — "author-only delete (403
unauthorized)". -/
def isValidFreetModifierCheck (db : DB) (userId freetId : Nat) : Option Resp :=
  match FreetCollection.findOne db freetId with
  | none => none
  | some f =>
    if f.authorId = userId then none
    else some (errResp 403 (Json.str "Cannot modify other users' freets."))

/-- JS `String.prototype.trim`: strip leading and trailing whitespace
(written out over the character list so that it evaluates). -/
def jsTrim (s : String) : String :=
  String.mk (((s.data.dropWhile Char.isWhitespace).reverse.dropWhile Char.isWhitespace).reverse)

/-- Modelled from the spec: `freetValidator.isValidFreetContent`
(freet/middleware.ts is not under src/) — "non-empty after trimming, ≤280
characters": 400 when the content is empty or blank after trimming, 413 when
it exceeds 280 characters. -/
def isValidFreetContentCheck (content : String) : Option Resp :=
  if jsTrim content = "" then
    some (errResp 400 (Json.str "Freet content must be at least one character long."))
  else if (jsTrim content).length > 280 then
    some (errResp 413 (Json.str "Freet content must be no more than 280 characters."))
  else none

/-! ### Response formatters -/

/-- Stand-in for `moment(date).format('MMMM Do YYYY, h:mm:ss a')`: the exact
rendering lives in the external moment library; only that a string is
produced matters to the claims. -/
def formatDate (date : Nat) : String :=
  toString date

/-- Username of a user id after `populate('authorId')` (empty when the
reference is dangling). -/
def usernameOf (db : DB) (userId : Nat) : String :=
  ((UserCollection.findOneByUserId db userId).map (fun u => u.username)).getD ""

/-- `constructUpvoteResponse` (src/unnamed/part_001 lines 29-45): id and freet
id stringified, the author reference replaced by the username, the date
formatted. -/
def constructUpvoteResponse (db : DB) (uv : Upvote) : Json :=
  Json.obj
    [("_id", Json.str (toString uv.uvid)),
     ("freetId", Json.str (toString uv.freetId)),
     ("author", Json.str (usernameOf db uv.authorId)),
     ("dateCreated", Json.str (formatDate uv.dateCreated))]

/-- Modelled from the spec: `constructFreetResponse` / `constructRawFreetResponse`
(freet/util.ts is not under src/) — "identifiers stringified, related-entity
references resolved to display fields, dates rendered as strings". -/
def constructFreetResponse (db : DB) (f : Freet) : Json :=
  Json.obj
    [("_id", Json.str (toString f.fid)),
     ("author", Json.str (usernameOf db f.authorId)),
     ("content", Json.str f.content),
     ("dateCreated", Json.str (formatDate f.dateCreated))]

/-! ### Route handlers -/

/-- `GET /freets` without an author query (freet router, appended to
src/client/components/Freet/FreetComponent.vue, lines 182-219): `underage`
starts as `null`; when a session user id exists their `underage` flag is
looked up (`none` models the crash when the id matches no user); an underage
requester gets the unflagged freets, anyone else all freets. -/
def listFreetsRoute (db : DB) (session : Option Nat) : Option Resp :=
  match session with
  | none =>
    some { status := 200,
           body := Json.arr ((FreetCollection.findAll db).map (constructFreetResponse db)) }
  | some uid =>
    match UserCollection.findOneByUserId db uid with
    | none => none
    | some u =>
      if u.underage then
        some { status := 200,
               body := Json.arr ((FreetCollection.findAllUnflagged db).map (constructFreetResponse db)) }
      else
        some { status := 200,
               body := Json.arr ((FreetCollection.findAll db).map (constructFreetResponse db)) }

/-- `GET /freets/:freetId` (freet router lines 238-263): guard chain
`isFreetExists`, `isUserLoggedIn`, `isUserAdult` — run for EVERY freet,
flagged or not — then the handler returns the freet with a message that
depends on the self-flag. `none` models the crash when the session user id
matches no user. -/
def getFreetByIdRoute (db : DB) (session : Option Nat) (freetId : Nat) :
    Option Resp :=
  match isFreetExistsCheck db freetId with
  | some e => some e
  | none =>
    match isUserLoggedInCheck session with
    | some e => some e
    | none =>
      match session with
      | none => none
      | some uid =>
        match isUserAdultCheck db uid with
        | none => none
        | some (some e) => some e
        | some none =>
          match FreetCollection.findOne db freetId with
          | none => none
          | some freet =>
            let message :=
              if !freet.selfFlagged then
                "Freet is not flagged, but here it is still for viewing!"
              else "Success. Here is the unflagged Freet."
            some { status := 200,
                   body := Json.obj
                     [("freet", constructFreetResponse db freet),
                      ("message", Json.str message)] }

/-- `POST /freets` (freet router lines 276-308): guards `isUserLoggedIn` and
`isValidFreetContent`; every body field except `content` is collected into
the flag-reason list; then `FreetCollection.addOne` and a 201
`\x7bmessage, freet\x7d` envelope. -/
def postFreetRoute (db : DB) (session : Option Nat) (content : String)
    (flagFields : List String) (newId date : Nat) : DB × Resp :=
  match isUserLoggedInCheck session with
  | some e => (db, e)
  | none =>
    match isValidFreetContentCheck content with
    | some e => (db, e)
    | none =>
      let userId := session.getD 0
      let flag_responses := flagFields
      let added := FreetCollection.addOne db userId content flag_responses newId date
      (added.1, { status := 201,
                  body := Json.obj
                    [("message", Json.str "Your freet was created successfully."),
                     ("freet", constructFreetResponse added.1 added.2)] })

/-- `DELETE /freets/:freetId` (freet router lines 320-334): guards
`isUserLoggedIn`, `isFreetExists`, `isValidFreetModifier`; then
`FreetCollection.deleteOne` followed by
`UpvoteCollection.deleteManyByFreetId(freetId, req.session.userId)`. -/
def deleteFreetRoute (db : DB) (session : Option Nat) (freetId : Nat) :
    Option (DB × Resp) :=
  match isUserLoggedInCheck session with
  | some e => some (db, e)
  | none =>
    match isFreetExistsCheck db freetId with
    | some e => some (db, e)
    | none =>
      match session with
      | none => none
      | some uid =>
        match isValidFreetModifierCheck db uid freetId with
        | some e => some (db, e)
        | none =>
          let db1 := FreetCollection.deleteOne db freetId
          match UpvoteCollection.deleteManyByFreetId db1 freetId uid with
          | none => none
          | some db2 =>
            some (db2, { status := 200,
                         body := Json.obj
                           [("message", Json.str "Your freet was deleted successfully.")] })

/-- `GET /upvotes` without query parameters (upvote router,
src/unnamed/part_000 lines 287-308): all upvotes, each formatted, as a BARE
JSON array. -/
def listUpvotesRoute (db : DB) : Resp :=
  { status := 200,
    body := Json.arr ((UpvoteCollection.findAll db).map (constructUpvoteResponse db)) }

/-- `isFreetUpvotedbyUser` (src/unnamed/part_000 lines 166-178): 409 when the
session user's `upvotedFreets` already contains the freet id; `none` models
the crash when the session user id matches no user. -/
def isFreetUpvotedbyUserCheck (db : DB) (userId freetId : Nat) :
    Option (Option Resp) :=
  match UserCollection.findOneByUserId db userId with
  | none => none
  | some author =>
    if author.upvotedFreets.contains freetId then
      some (some (errResp 409 (Json.obj
        [("upvoteAlreadyExists", Json.str "User has already upvoted this Freet.")])))
    else some none

/-- `POST /upvotes/:freetId` (upvote router, src/unnamed/part_000 lines
352-369): guards `isUserLoggedIn`, `isFreetExists`, `isFreetUpvotedbyUser`;
then `UpvoteCollection.addOne` and a 201 `\x7bmessage, upvote\x7d` envelope. -/
def postUpvoteRoute (db : DB) (session : Option Nat) (freetId newId date : Nat) :
    Option (DB × Resp) :=
  match isUserLoggedInCheck session with
  | some e => some (db, e)
  | none =>
    match isFreetExistsCheck db freetId with
    | some e => some (db, e)
    | none =>
      match session with
      | none => none
      | some uid =>
        match isFreetUpvotedbyUserCheck db uid freetId with
        | none => none
        | some (some e) => some (db, e)
        | some none =>
          match UpvoteCollection.addOne db freetId uid newId date with
          | none => none
          | some (db', uv) =>
            some (db', { status := 201,
                         body := Json.obj
                           [("message", Json.str "You have upvoted this freet successfully."),
                            ("upvote", constructUpvoteResponse db' uv)] })

/-! ### Shared lemmas about the embedded operations -/

theorem findOneByUserId_saveUpvotedFreets (users : List User) (uid : Nat)
    (g : List Nat → List Nat) (u : User)
    (h : users.find? (fun v => v.uid = uid) = some u) :
    (saveUpvotedFreets users uid g).find? (fun v => v.uid = uid) =
      some { u with upvotedFreets := g u.upvotedFreets } := by
  induction users with
  | nil => simp at h
  | cons a rest ih =>
    by_cases ha : a.uid = uid
    · rw [List.find?_cons_of_pos _ (by simpa using ha)] at h
      have hau : a = u := by injection h
      subst hau
      simp only [saveUpvotedFreets, List.map_cons, if_pos ha]
      rw [List.find?_cons_of_pos _ (by simpa using ha)]
    · rw [List.find?_cons_of_neg _ (by simpa using ha)] at h
      simp only [saveUpvotedFreets, List.map_cons, if_neg ha]
      rw [List.find?_cons_of_neg _ (by simpa using ha)]
      exact ih h

/-! ### Example fixtures -/

/-- An adult user with an empty upvoted list. -/
def alice : User :=
  { uid := 1, username := "alice", password := "pw",
    dateJoined := { year := 2022, month := 0, day := 1 },
    birthday := { year := 1990, month := 0, day := 1 },
    underage := false, upvotedFreets := [] }

/-- An adult user who has upvoted freet 10. -/
def bob : User :=
  { uid := 2, username := "bob", password := "pw2",
    dateJoined := { year := 2022, month := 0, day := 2 },
    birthday := { year := 1991, month := 0, day := 1 },
    underage := false, upvotedFreets := [10] }

/-- An underage user. -/
def carol : User :=
  { uid := 3, username := "carol", password := "pw3",
    dateJoined := { year := 2022, month := 0, day := 3 },
    birthday := { year := 2008, month := 0, day := 1 },
    underage := true, upvotedFreets := [] }

/-- An unflagged freet authored by alice. -/
def freet10 : Freet :=
  { fid := 10, authorId := 1, content := "hello world",
    selfFlagged := false, flagReasons := [], dateCreated := 5 }

/-- A self-flagged freet authored by bob. -/
def freet11 : Freet :=
  { fid := 11, authorId := 2, content := "flagged content",
    selfFlagged := true, flagReasons := ["nsfw"], dateCreated := 6 }

/-- Bob's upvote of freet 10. -/
def upvote100 : Upvote :=
  { uvid := 100, freetId := 10, authorId := 2, dateCreated := 7 }

/-- Store: alice authored freet 10, bob upvoted it; one flagged freet. -/
def exDb : DB :=
  { users := [alice, bob, carol], freets := [freet10, freet11], upvotes := [upvote100] }

/-! ### Claims -/

/-- Claim C1: the spec says deleting a freet removes all upvotes referencing
it AND scrubs its id from the `upvotedFreets` list of every user who had
upvoted it. Evaluating the code at a failing input: alice (the author, who
never upvoted her own freet) deletes freet 10, which bob had upvoted. The
upvote records are all removed, but bob's `upvotedFreets` still contains 10 —
`deleteManyByFreetId` only splices the id out of the REQUESTER's list. -/
theorem claim_C1_code_eval :
    ∃ db' resp, deleteFreetRoute exDb (some 1) 10 = some (db', resp) ∧
      resp.status = 200 ∧
      (∀ uv ∈ db'.upvotes, uv.freetId ≠ 10) ∧
      ∃ u ∈ db'.users, u.uid = 2 ∧ 10 ∈ u.upvotedFreets := by
  refine ⟨_, _, rfl, rfl, by decide, by decide⟩

/-- Claim C2 counterexample: the claim says the logged-in/not-underage demand
applies ONLY when the fetched freet is self-flagged. But freet 10 is not
self-flagged, and an unauthenticated fetch of it still gets a 403
authorization failure: the guard chain of `GET /freets/:freetId` runs for
every freet. -/
theorem claim_C2_counterexample :
    freet10.selfFlagged = false ∧
    ∃ resp, getFreetByIdRoute exDb none 10 = some resp ∧
      resp.status = 403 ∧ isErrorEnvelope resp.body = true := by
  exact ⟨rfl, _, rfl, rfl, rfl⟩

/-- Claim C2 (amended): fetching a single freet by identifier demands a
logged-in, not-underage requester for EVERY freet, self-flagged or not;
unauthenticated or underage callers always receive a 403 authorization
failure (in particular for self-flagged freets), never a filtered result. -/
theorem claim_C2_amended (db : DB) (freetId : Nat)
    (hf : (FreetCollection.findOne db freetId).isSome = true) :
    (getFreetByIdRoute db none freetId =
      some (errResp 403 (Json.str "You must be logged in."))) ∧
    (∀ uid u, UserCollection.findOneByUserId db uid = some u → u.underage = true →
      getFreetByIdRoute db (some uid) freetId =
        some (errResp 403 (Json.str "Underage users cannot view flagged Freets."))) := by
  constructor
  · simp [getFreetByIdRoute, isFreetExistsCheck, hf, isUserLoggedInCheck]
  · intro uid u hu hunder
    simp [getFreetByIdRoute, isFreetExistsCheck, hf, isUserLoggedInCheck,
      isUserAdultCheck, hu, hunder]

/-- Witness for `claim_C2_amended` at the store `exDb`: freet 11 is
self-flagged; an unauthenticated fetch and a fetch by the underage user carol
both yield 403. -/
theorem claim_C2_witness :
    (getFreetByIdRoute exDb none 11 =
      some (errResp 403 (Json.str "You must be logged in."))) ∧
    (getFreetByIdRoute exDb (some 3) 11 =
      some (errResp 403 (Json.str "Underage users cannot view flagged Freets."))) := by
  have h := claim_C2_amended exDb 11 (by decide)
  exact ⟨h.1, h.2 3 carol (by decide) (by decide)⟩

/-- Claim C9: when the freet id handed to `UpvoteCollection.deleteOne` or
`UpvoteCollection.deleteManyByFreetId` is absent from the author's
`upvotedFreets`, `indexOf` yields `-1` and `splice(-1, 1)` removes the LAST
element of the (nonempty) list instead of leaving it unchanged. -/
theorem claim_C9_splice_absent (db : DB) (u : User) (upvoteId authorId freetId : Nat)
    (hu : UserCollection.findOneByUserId db authorId = some u)
    (habs : freetId ∉ u.upvotedFreets) (hne : u.upvotedFreets ≠ []) :
    (∃ db1 b, UpvoteCollection.deleteOne db upvoteId authorId freetId = some (db1, b) ∧
      UserCollection.findOneByUserId db1 authorId =
        some { u with upvotedFreets := u.upvotedFreets.dropLast } ∧
      u.upvotedFreets.dropLast.length + 1 = u.upvotedFreets.length) ∧
    (∃ db2, UpvoteCollection.deleteManyByFreetId db freetId authorId = some db2 ∧
      UserCollection.findOneByUserId db2 authorId =
        some { u with upvotedFreets := u.upvotedFreets.dropLast } ∧
      u.upvotedFreets.dropLast.length + 1 = u.upvotedFreets.length) := by
  have hsave := findOneByUserId_saveUpvotedFreets db.users authorId
    (fun l => spliceOutFreet l freetId) u hu
  have hsplice : spliceOutFreet u.upvotedFreets freetId = u.upvotedFreets.dropLast :=
    spliceOutFreet_of_not_mem habs
  have hlen : u.upvotedFreets.dropLast.length + 1 = u.upvotedFreets.length := by
    rw [List.length_dropLast]
    have : u.upvotedFreets.length ≠ 0 := fun h0 => hne (List.eq_nil_of_length_eq_zero h0)
    omega
  have hfind1 : UserCollection.findOneByUserId
      { db with
        users := saveUpvotedFreets db.users authorId (fun l => spliceOutFreet l freetId),
        upvotes := eraseFirstUpvoteById db.upvotes upvoteId } authorId =
      some { u with upvotedFreets := u.upvotedFreets.dropLast } := by
    simpa [UserCollection.findOneByUserId, hsplice] using hsave
  have hfind2 : UserCollection.findOneByUserId
      { db with
        users := saveUpvotedFreets db.users authorId (fun l => spliceOutFreet l freetId),
        upvotes := db.upvotes.filter (fun uv => !(uv.freetId = freetId : Bool)) }
      authorId =
      some { u with upvotedFreets := u.upvotedFreets.dropLast } := by
    simpa [UserCollection.findOneByUserId, hsplice] using hsave
  constructor
  · refine ⟨_, true, ?_, hfind1, hlen⟩
    simp only [UpvoteCollection.deleteOne, hu, upvoteModelDeleteOne, Option.isSome_some]
  · refine ⟨_, ?_, hfind2, hlen⟩
    simp only [UpvoteCollection.deleteManyByFreetId, hu]

/-- Witness for `claim_C9_splice_absent`: bob's list is `[10]`; deleting with
freet id 99 (which he never upvoted) leaves him with the empty list. -/
theorem claim_C9_witness :
    ∃ db1 b, UpvoteCollection.deleteOne exDb 100 2 99 = some (db1, b) ∧
      UserCollection.findOneByUserId db1 2 =
        some { bob with upvotedFreets := [] } ∧
      ([] : List Nat).length + 1 = bob.upvotedFreets.length := by
  have h := (claim_C9_splice_absent exDb bob 100 2 99 (by decide) (by decide)
    (by decide)).1
  simpa [bob] using h

/-- Claim C10: `UpvoteCollection.deleteOne` and `UserCollection.deleteOne`
compare the mongoose delete-result object — which is never `null` — against
`null`, so they return `true` for every input, including ids matching no
stored document. -/
theorem claim_C10_delete_returns_true :
    (∀ db upvoteId authorId freetId db' b,
      UpvoteCollection.deleteOne db upvoteId authorId freetId = some (db', b) →
        b = true) ∧
    (∀ db userId, (UserCollection.deleteOne db userId).2 = true) := by
  constructor
  · intro db upvoteId authorId freetId db' b h
    unfold UpvoteCollection.deleteOne at h
    cases hfind : UserCollection.findOneByUserId db authorId with
    | none => rw [hfind] at h; exact absurd h (by simp)
    | some u =>
      rw [hfind] at h
      simp only [upvoteModelDeleteOne, Option.isSome_some, Option.some.injEq,
        Prod.mk.injEq] at h
      exact h.2.symm
  · intro db userId
    rfl

/-- Witness for `claim_C10_delete_returns_true`: deleting upvote id 999 (no
such record) still returns `true`. -/
theorem claim_C10_witness :
    ∃ db' b, UpvoteCollection.deleteOne exDb 999 2 10 = some (db', b) ∧ b = true := by
  refine ⟨_, _, rfl, ?_⟩
  exact claim_C10_delete_returns_true.1 exDb 999 2 10 _ _ rfl

/-- A string has length at least 1 exactly when it is not empty. -/
theorem one_le_length_iff_ne_empty (s : String) : 1 ≤ s.length ↔ ¬ s = "" := by
  cases s with
  | mk data =>
    cases data with
    | nil => simp [String.length]
    | cons c cs =>
      constructor
      · intro _ h
        have h2 := congrArg String.data h
        simp only [String.data] at h2
        exact List.cons_ne_nil c cs h2
      · intro _
        simp [String.length]

/-- Claim C3: when the requester is authenticated and underage, `GET /freets`
(no author filter) returns exactly the freets with no self-flag — so an
underage user's list never contains a self-flagged freet; an unauthenticated
or not-underage requester gets all freets. -/
theorem claim_C3_visibility (db : DB) :
    (∀ uid u, UserCollection.findOneByUserId db uid = some u → u.underage = true →
      listFreetsRoute db (some uid) =
        some { status := 200,
               body := Json.arr ((FreetCollection.findAllUnflagged db).map (constructFreetResponse db)) } ∧
      ∀ f ∈ FreetCollection.findAllUnflagged db, f.selfFlagged = false) ∧
    (listFreetsRoute db none =
      some { status := 200,
             body := Json.arr ((FreetCollection.findAll db).map (constructFreetResponse db)) }) ∧
    (∀ uid u, UserCollection.findOneByUserId db uid = some u → u.underage = false →
      listFreetsRoute db (some uid) =
        some { status := 200,
               body := Json.arr ((FreetCollection.findAll db).map (constructFreetResponse db)) }) := by
  refine ⟨?_, rfl, ?_⟩
  · intro uid u hu hund
    constructor
    · simp only [listFreetsRoute, hu, hund, if_pos]
    · intro f hf
      have hp := (List.mem_filter.mp hf).2
      simpa using hp
  · intro uid u hu hund
    simp [listFreetsRoute, hu, hund]

/-- Witness for `claim_C3_visibility`: carol is underage; listing gives her
the unflagged freets only. -/
theorem claim_C3_witness :
    listFreetsRoute exDb (some 3) =
      some { status := 200,
             body := Json.arr ((FreetCollection.findAllUnflagged exDb).map (constructFreetResponse exDb)) } ∧
    ∀ f ∈ FreetCollection.findAllUnflagged exDb, f.selfFlagged = false := by
  exact (claim_C3_visibility exDb).1 3 carol (by decide) (by decide)

/-- Claim C6: for an authenticated `POST /freets`, creation returns 201
exactly when the trimmed content has length in [1, 280]; blank-after-trimming
content gets 400 and over-long content gets 413. (`isValidFreetContent` is
modelled from the spec; its middleware file is not under src/.) -/
theorem claim_C6_content_validation (db : DB) (uid : Nat) (content : String)
    (flagFields : List String) (newId date : Nat) :
    ((postFreetRoute db (some uid) content flagFields newId date).2.status = 201 ↔
      (1 ≤ (jsTrim content).length ∧ (jsTrim content).length ≤ 280)) ∧
    (jsTrim content = "" →
      (postFreetRoute db (some uid) content flagFields newId date).2 =
        errResp 400 (Json.str "Freet content must be at least one character long.")) ∧
    ((jsTrim content).length > 280 →
      (postFreetRoute db (some uid) content flagFields newId date).2 =
        errResp 413 (Json.str "Freet content must be no more than 280 characters.")) := by
  by_cases h1 : jsTrim content = ""
  · have hch : isValidFreetContentCheck content =
        some (errResp 400 (Json.str "Freet content must be at least one character long.")) := by
      simp [isValidFreetContentCheck, h1]
    have hpost : (postFreetRoute db (some uid) content flagFields newId date).2 =
        errResp 400 (Json.str "Freet content must be at least one character long.") := by
      simp only [postFreetRoute, isUserLoggedInCheck, hch]
    have hlen : (jsTrim content).length = 0 := by rw [h1]; rfl
    refine ⟨?_, fun _ => hpost, fun hgt => by omega⟩
    rw [hpost]
    simp only [errResp]
    constructor
    · intro h; exact absurd h (by norm_num)
    · intro h; omega
  · by_cases h2 : (jsTrim content).length > 280
    · have hch : isValidFreetContentCheck content =
          some (errResp 413 (Json.str "Freet content must be no more than 280 characters.")) := by
        simp [isValidFreetContentCheck, h1, h2]
      have hpost : (postFreetRoute db (some uid) content flagFields newId date).2 =
          errResp 413 (Json.str "Freet content must be no more than 280 characters.") := by
        simp only [postFreetRoute, isUserLoggedInCheck, hch]
      refine ⟨?_, fun he => absurd he h1, fun _ => hpost⟩
      rw [hpost]
      simp only [errResp]
      constructor
      · intro h; exact absurd h (by norm_num)
      · intro h; omega
    · have hch : isValidFreetContentCheck content = none := by
        simp [isValidFreetContentCheck, h1, h2]
      have hpost : (postFreetRoute db (some uid) content flagFields newId date).2.status =
          201 := by
        simp only [postFreetRoute, isUserLoggedInCheck, hch]
      have hge : 1 ≤ (jsTrim content).length := (one_le_length_iff_ne_empty _).mpr h1
      refine ⟨?_, fun he => absurd he h1, fun hgt => absurd hgt h2⟩
      exact ⟨fun _ => ⟨hge, by omega⟩, fun _ => hpost⟩

/-- Witness for `claim_C6_content_validation`: posting `"hello"` while logged
in succeeds with 201; posting `"   "` yields 400. -/
theorem claim_C6_witness :
    (postFreetRoute exDb (some 1) "hello" [] 30 8).2.status = 201 ∧
    (postFreetRoute exDb (some 1) "   " [] 30 8).2 =
      errResp 400 (Json.str "Freet content must be at least one character long.") := by
  constructor
  · exact (claim_C6_content_validation exDb 1 "hello" [] 30 8).1.mpr (by decide)
  · exact (claim_C6_content_validation exDb 1 "   " [] 30 8).2.1 (by decide)

/-- Claim C8: `underage` is computed at account creation as
`calculateAge(birthday) < 18`, where the age is the year difference
decremented exactly when the current month/day precedes the birthday's
month/day; and `UserCollection.updateOne` touches only `password` and
`username`, leaving `underage`, `birthday`, `dateJoined` and `upvotedFreets`
(and the id) unchanged. -/
theorem claim_C8_underage_immutable :
    (∀ t b : SimpleDate, calculateAge t b =
      t.year - b.year -
        (if t.month < b.month ∨ (t.month = b.month ∧ t.day < b.day) then 1 else 0)) ∧
    (∀ db newId today username password birthday,
      ((UserCollection.addOne db newId today username password birthday).2).underage =
        decide (calculateAge today birthday < 18)) ∧
    (∀ db userId pw un db' u', UserCollection.updateOne db userId pw un = some (db', u') →
      ∃ u, UserCollection.findOneByUserId db userId = some u ∧
        u'.underage = u.underage ∧ u'.birthday = u.birthday ∧
        u'.dateJoined = u.dateJoined ∧ u'.upvotedFreets = u.upvotedFreets ∧
        u'.uid = u.uid) := by
  refine ⟨?_, ?_, ?_⟩
  · intro t b
    simp only [calculateAge]
    split_ifs with hc1 hc2 hc2 <;> omega
  · intro db newId today username password birthday
    rfl
  · intro db userId pw un db' u' h
    unfold UserCollection.updateOne at h
    cases hfind : UserCollection.findOneByUserId db userId with
    | none => rw [hfind] at h; exact absurd h (by simp)
    | some u =>
      rw [hfind] at h
      simp only [Option.some.injEq, Prod.mk.injEq] at h
      obtain ⟨-, hu'⟩ := h
      refine ⟨u, rfl, ?_⟩
      rw [← hu']
      split_ifs <;> simp

/-- Witness for `claim_C8_underage_immutable`: updating alice's password
leaves her `underage`, `birthday`, `dateJoined` and `upvotedFreets` intact. -/
theorem claim_C8_witness :
    ∃ db' u', UserCollection.updateOne exDb 1 (some "npw") none = some (db', u') ∧
      ∃ u, UserCollection.findOneByUserId exDb 1 = some u ∧
        u'.underage = u.underage ∧ u'.birthday = u.birthday ∧
        u'.dateJoined = u.dateJoined ∧ u'.upvotedFreets = u.upvotedFreets ∧
        u'.uid = u.uid := by
  refine ⟨_, _, rfl, ?_⟩
  exact claim_C8_underage_immutable.2.2 exDb 1 (some "npw") none _ _ rfl

/-- Claim C4: after a first successful `POST /upvotes/:freetId`, a second
identical request by the same user fails with the 409 duplicate-conflict
error and creates no new upvote record; the check reads the user's
`upvotedFreets` list, which the first upvote extended with the freet id. -/
theorem claim_C4_duplicate_upvote (db : DB) (uid freetId : Nat) (u : User)
    (hu : UserCollection.findOneByUserId db uid = some u)
    (hf : (FreetCollection.findOne db freetId).isSome = true)
    (hnot : freetId ∉ u.upvotedFreets)
    (newId date newId2 date2 : Nat) :
    ∃ db1 r1, postUpvoteRoute db (some uid) freetId newId date = some (db1, r1) ∧
      r1.status = 201 ∧
      db1.upvotes = db.upvotes ++
        [{ uvid := newId, freetId := freetId, authorId := uid, dateCreated := date }] ∧
      postUpvoteRoute db1 (some uid) freetId newId2 date2 =
        some (db1, errResp 409 (Json.obj
          [("upvoteAlreadyExists", Json.str "User has already upvoted this Freet.")])) := by
  have hcontains : u.upvotedFreets.contains freetId = false := by simpa using hnot
  have hfe : isFreetExistsCheck db freetId = none := by
    simp [isFreetExistsCheck, hf]
  have hguard : isFreetUpvotedbyUserCheck db uid freetId = some none := by
    simp [isFreetUpvotedbyUserCheck, hu, hnot]
  have hadd : UpvoteCollection.addOne db freetId uid newId date =
      some ({ db with
              users := saveUpvotedFreets db.users uid (fun l => l ++ [freetId]),
              upvotes := db.upvotes ++
                [{ uvid := newId, freetId := freetId, authorId := uid, dateCreated := date }] },
            { uvid := newId, freetId := freetId, authorId := uid, dateCreated := date }) := by
    simp only [UpvoteCollection.addOne, hu]
  have hu1 : UserCollection.findOneByUserId
      { db with
        users := saveUpvotedFreets db.users uid (fun l => l ++ [freetId]),
        upvotes := db.upvotes ++
          [{ uvid := newId, freetId := freetId, authorId := uid, dateCreated := date }] } uid =
      some { u with upvotedFreets := u.upvotedFreets ++ [freetId] } := by
    exact findOneByUserId_saveUpvotedFreets db.users uid (fun l => l ++ [freetId]) u hu
  have hcont1 : ({ u with upvotedFreets := u.upvotedFreets ++ [freetId] } : User).upvotedFreets.contains freetId = true := by
    simp
  have hfe1 : isFreetExistsCheck
      { db with
        users := saveUpvotedFreets db.users uid (fun l => l ++ [freetId]),
        upvotes := db.upvotes ++
          [{ uvid := newId, freetId := freetId, authorId := uid, dateCreated := date }] } freetId = none := by
    simp [isFreetExistsCheck, FreetCollection.findOne] at hf ⊢
    exact hf
  have hguard1 : isFreetUpvotedbyUserCheck
      { db with
        users := saveUpvotedFreets db.users uid (fun l => l ++ [freetId]),
        upvotes := db.upvotes ++
          [{ uvid := newId, freetId := freetId, authorId := uid, dateCreated := date }] } uid freetId =
      some (some (errResp 409 (Json.obj
        [("upvoteAlreadyExists", Json.str "User has already upvoted this Freet.")]))) := by
    simp only [isFreetUpvotedbyUserCheck, hu1, hcont1, if_pos]
  have heq1 : postUpvoteRoute db (some uid) freetId newId date =
      some ({ db with
              users := saveUpvotedFreets db.users uid (fun l => l ++ [freetId]),
              upvotes := db.upvotes ++
                [{ uvid := newId, freetId := freetId, authorId := uid, dateCreated := date }] },
            { status := 201,
              body := Json.obj
                [("message", Json.str "You have upvoted this freet successfully."),
                 ("upvote", constructUpvoteResponse
                   { db with
                     users := saveUpvotedFreets db.users uid (fun l => l ++ [freetId]),
                     upvotes := db.upvotes ++
                       [{ uvid := newId, freetId := freetId, authorId := uid, dateCreated := date }] }
                   { uvid := newId, freetId := freetId, authorId := uid, dateCreated := date })] }) := by
    simp only [postUpvoteRoute, isUserLoggedInCheck, hfe, hguard, hadd]
  refine ⟨_, _, heq1, rfl, rfl, ?_⟩
  simp only [postUpvoteRoute, isUserLoggedInCheck, hfe1, hguard1]

/-- Witness for `claim_C4_duplicate_upvote`: alice upvotes freet 11 once
(201), then tries again and gets the 409 duplicate-conflict error. -/
theorem claim_C4_witness :
    ∃ db1 r1, postUpvoteRoute exDb (some 1) 11 40 9 = some (db1, r1) ∧
      r1.status = 201 ∧
      db1.upvotes = exDb.upvotes ++
        [{ uvid := 40, freetId := 11, authorId := 1, dateCreated := 9 }] ∧
      postUpvoteRoute db1 (some 1) 11 41 10 =
        some (db1, errResp 409 (Json.obj
          [("upvoteAlreadyExists", Json.str "User has already upvoted this Freet.")])) :=
  claim_C4_duplicate_upvote exDb 1 11 alice (by decide) (by decide) (by decide) 40 9 41 10

/-! ### Shapes of guard failures -/

theorem isUserLoggedInCheck_error {s : Option Nat} {e : Resp}
    (h : isUserLoggedInCheck s = some e) :
    e.status = 403 ∧ isErrorEnvelope e.body = true := by
  cases s with
  | none =>
    simp only [isUserLoggedInCheck, Option.some.injEq] at h
    subst h
    exact ⟨rfl, rfl⟩
  | some uid => simp [isUserLoggedInCheck] at h

theorem isFreetExistsCheck_error {db : DB} {freetId : Nat} {e : Resp}
    (h : isFreetExistsCheck db freetId = some e) :
    e.status = 404 ∧ isErrorEnvelope e.body = true := by
  unfold isFreetExistsCheck at h
  split at h
  · simp at h
  · simp only [Option.some.injEq] at h
    subst h
    exact ⟨rfl, rfl⟩

theorem isUserAdultCheck_error {db : DB} {userId : Nat} {e : Resp}
    (h : isUserAdultCheck db userId = some (some e)) :
    e.status = 403 ∧ isErrorEnvelope e.body = true := by
  unfold isUserAdultCheck at h
  split at h
  · simp at h
  · split at h
    · simp only [Option.some.injEq] at h
      subst h
      exact ⟨rfl, rfl⟩
    · simp at h

theorem isValidFreetModifierCheck_error {db : DB} {userId freetId : Nat} {e : Resp}
    (h : isValidFreetModifierCheck db userId freetId = some e) :
    e.status = 403 ∧ isErrorEnvelope e.body = true := by
  unfold isValidFreetModifierCheck at h
  split at h
  · simp at h
  · split at h
    · simp at h
    · simp only [Option.some.injEq] at h
      subst h
      exact ⟨rfl, rfl⟩

theorem isValidFreetContentCheck_error {content : String} {e : Resp}
    (h : isValidFreetContentCheck content = some e) :
    (e.status = 400 ∨ e.status = 413) ∧ isErrorEnvelope e.body = true := by
  unfold isValidFreetContentCheck at h
  split at h
  · simp only [Option.some.injEq] at h
    subst h
    exact ⟨Or.inl rfl, rfl⟩
  · split at h
    · simp only [Option.some.injEq] at h
      subst h
      exact ⟨Or.inr rfl, rfl⟩
    · simp at h

theorem isFreetUpvotedbyUserCheck_error {db : DB} {userId freetId : Nat} {e : Resp}
    (h : isFreetUpvotedbyUserCheck db userId freetId = some (some e)) :
    e.status = 409 ∧ isErrorEnvelope e.body = true := by
  unfold isFreetUpvotedbyUserCheck at h
  split at h
  · simp at h
  · split at h
    · simp only [Option.some.injEq] at h
      subst h
      exact ⟨rfl, rfl⟩
    · simp at h

/-- Claim C7 counterexample: the success response of `GET /upvotes` is a bare
JSON array, not a `\x7bmessage, <entity>\x7d` envelope, contradicting the claim
that every successful response follows that envelope. -/
theorem claim_C7_counterexample :
    (listUpvotesRoute exDb).status = 200 ∧
    isMessageEnvelope (listUpvotesRoute exDb).body = false :=
  ⟨rfl, rfl⟩

/-- Claim C7 (amended): failure responses are `\x7berror\x7d` envelopes and the
successful responses of the mutating/single-fetch endpoints are
`\x7bmessage, <entity>\x7d` envelopes, but the list endpoints (`GET /freets`,
`GET /upvotes`) return a bare JSON array on success, not an envelope. -/
theorem claim_C7_amended :
    (∀ db, ∃ items, (listUpvotesRoute db).body = Json.arr items) ∧
    (∀ db session r, listFreetsRoute db session = some r →
      ∃ items, r.body = Json.arr items) ∧
    (∀ db session content ff newId date,
      ((postFreetRoute db session content ff newId date).2.status = 201 →
        isMessageEnvelope (postFreetRoute db session content ff newId date).2.body = true) ∧
      ((postFreetRoute db session content ff newId date).2.status ≠ 201 →
        isErrorEnvelope (postFreetRoute db session content ff newId date).2.body = true)) ∧
    (∀ db session freetId newId date db' r,
      postUpvoteRoute db session freetId newId date = some (db', r) →
      (r.status = 201 → isMessageEnvelope r.body = true) ∧
      (r.status ≠ 201 → isErrorEnvelope r.body = true)) ∧
    (∀ db session freetId db' r,
      deleteFreetRoute db session freetId = some (db', r) →
      (r.status = 200 → isMessageEnvelope r.body = true) ∧
      (r.status ≠ 200 → isErrorEnvelope r.body = true)) ∧
    (∀ db session freetId r,
      getFreetByIdRoute db session freetId = some r →
      (r.status = 200 → isMessageEnvelope r.body = true) ∧
      (r.status ≠ 200 → isErrorEnvelope r.body = true)) := by
  refine ⟨fun db => ⟨_, rfl⟩, ?_, ?_, ?_, ?_, ?_⟩
  · intro db session r h
    unfold listFreetsRoute at h
    split at h
    · simp only [Option.some.injEq] at h
      subst h
      exact ⟨_, rfl⟩
    · split at h
      · simp at h
      · split at h
        · simp only [Option.some.injEq] at h
          subst h
          exact ⟨_, rfl⟩
        · simp only [Option.some.injEq] at h
          subst h
          exact ⟨_, rfl⟩
  · intro db session content ff newId date
    unfold postFreetRoute
    split
    · rename_i e hlog
      obtain ⟨hst, henv⟩ := isUserLoggedInCheck_error hlog
      constructor
      · intro hc; rw [hst] at hc; exact absurd hc (by norm_num)
      · intro _; exact henv
    · split
      · rename_i e hch
        obtain ⟨hst, henv⟩ := isValidFreetContentCheck_error hch
        constructor
        · intro hc
          rcases hst with h4 | h4 <;> rw [h4] at hc <;> exact absurd hc (by norm_num)
        · intro _; exact henv
      · exact ⟨fun _ => rfl, fun hne => absurd rfl hne⟩
  · intro db session freetId newId date db' r h
    unfold postUpvoteRoute at h
    split at h
    · rename_i e hlog
      simp only [Option.some.injEq, Prod.mk.injEq] at h
      obtain ⟨-, hr⟩ := h
      subst hr
      obtain ⟨hst, henv⟩ := isUserLoggedInCheck_error hlog
      exact ⟨fun hc => absurd hc (by rw [hst]; norm_num), fun _ => henv⟩
    · split at h
      · rename_i e hfe
        simp only [Option.some.injEq, Prod.mk.injEq] at h
        obtain ⟨-, hr⟩ := h
        subst hr
        obtain ⟨hst, henv⟩ := isFreetExistsCheck_error hfe
        exact ⟨fun hc => absurd hc (by rw [hst]; norm_num), fun _ => henv⟩
      · split at h
        · simp at h
        · split at h
          · simp at h
          · rename_i e hguard
            simp only [Option.some.injEq, Prod.mk.injEq] at h
            obtain ⟨-, hr⟩ := h
            subst hr
            obtain ⟨hst, henv⟩ := isFreetUpvotedbyUserCheck_error hguard
            exact ⟨fun hc => absurd hc (by rw [hst]; norm_num), fun _ => henv⟩
          · split at h
            · simp at h
            · simp only [Option.some.injEq, Prod.mk.injEq] at h
              obtain ⟨-, hr⟩ := h
              subst hr
              exact ⟨fun _ => rfl, fun hne => absurd rfl hne⟩
  · intro db session freetId db' r h
    unfold deleteFreetRoute at h
    split at h
    · rename_i e hlog
      simp only [Option.some.injEq, Prod.mk.injEq] at h
      obtain ⟨-, hr⟩ := h
      subst hr
      obtain ⟨hst, henv⟩ := isUserLoggedInCheck_error hlog
      exact ⟨fun hc => absurd hc (by rw [hst]; norm_num), fun _ => henv⟩
    · split at h
      · rename_i e hfe
        simp only [Option.some.injEq, Prod.mk.injEq] at h
        obtain ⟨-, hr⟩ := h
        subst hr
        obtain ⟨hst, henv⟩ := isFreetExistsCheck_error hfe
        exact ⟨fun hc => absurd hc (by rw [hst]; norm_num), fun _ => henv⟩
      · split at h
        · simp at h
        · split at h
          · rename_i e hmod
            simp only [Option.some.injEq, Prod.mk.injEq] at h
            obtain ⟨-, hr⟩ := h
            subst hr
            obtain ⟨hst, henv⟩ := isValidFreetModifierCheck_error hmod
            exact ⟨fun hc => absurd hc (by rw [hst]; norm_num), fun _ => henv⟩
          · dsimp only [] at h
            split at h
            · simp at h
            · simp only [Option.some.injEq, Prod.mk.injEq] at h
              obtain ⟨-, hr⟩ := h
              subst hr
              exact ⟨fun _ => rfl, fun hne => absurd rfl hne⟩
  · intro db session freetId r h
    unfold getFreetByIdRoute at h
    split at h
    · rename_i e hfe
      simp only [Option.some.injEq] at h
      subst h
      obtain ⟨hst, henv⟩ := isFreetExistsCheck_error hfe
      exact ⟨fun hc => absurd hc (by rw [hst]; norm_num), fun _ => henv⟩
    · split at h
      · rename_i e hlog
        simp only [Option.some.injEq] at h
        subst h
        obtain ⟨hst, henv⟩ := isUserLoggedInCheck_error hlog
        exact ⟨fun hc => absurd hc (by rw [hst]; norm_num), fun _ => henv⟩
      · split at h
        · simp at h
        · split at h
          · simp at h
          · rename_i e hadult
            simp only [Option.some.injEq] at h
            subst h
            obtain ⟨hst, henv⟩ := isUserAdultCheck_error hadult
            exact ⟨fun hc => absurd hc (by rw [hst]; norm_num), fun _ => henv⟩
          · split at h
            · simp at h
            · simp only [Option.some.injEq] at h
              subst h
              exact ⟨fun _ => rfl, fun hne => absurd rfl hne⟩

/-- Witness for `claim_C7_amended`: alice fetches freet 10 by id; the success
response is a `\x7bmessage, <entity>\x7d` envelope. -/
theorem claim_C7_witness :
    ∃ r, getFreetByIdRoute exDb (some 1) 10 = some r ∧
      isMessageEnvelope r.body = true := by
  refine ⟨_, rfl, ?_⟩
  exact (claim_C7_amended.2.2.2.2.2 exDb (some 1) 10 _ rfl).1 rfl

/-! ### The redundant upvoted-list invariant -/

/-- The spec's redundancy invariant: a user's `upvotedFreets` contains a
freet id exactly when a live upvote record by that user for that freet is
stored. -/
def upvoteListInvariant (db : DB) : Prop :=
  ∀ u ∈ db.users, ∀ f, f ∈ u.upvotedFreets ↔
    ∃ uv ∈ db.upvotes, uv.authorId = u.uid ∧ uv.freetId = f

theorem eraseFirstUpvoteById_eq_erase (l : List Upvote) (uv0 : Upvote)
    (h : ∀ uv ∈ l, uv.uvid = uv0.uvid → uv = uv0) :
    eraseFirstUpvoteById l uv0.uvid = l.erase uv0 := by
  induction l with
  | nil => rfl
  | cons a rest ih =>
    by_cases ha : a.uvid = uv0.uvid
    · have hau : a = uv0 := h a (List.mem_cons_self a rest) ha
      subst hau
      simp [eraseFirstUpvoteById, List.erase_cons_head]
    · have hane : ¬ a = uv0 := fun he => ha (by rw [he])
      simp only [eraseFirstUpvoteById, if_neg ha]
      rw [List.erase_cons_tail (by simp [hane])]
      rw [ih (fun uv hm hid => h uv (List.mem_cons_of_mem a hm) hid)]

/-- Claim C5: the redundancy invariant is preserved by every upvote add
(`UpvoteCollection.addOne` appends the freet id and stores the record) and by
every single upvote removal (`UpvoteCollection.deleteOne` splices the freet
id out and deletes the record), the removal under the system's standing
assumptions: the stored upvote exists, record ids are unique, at most one
record per (author, freet) pair, and no duplicates in the stored lists. -/
theorem claim_C5_invariant_preserved :
    (∀ db freetId authorId newId date db' uv,
      upvoteListInvariant db →
      UpvoteCollection.addOne db freetId authorId newId date = some (db', uv) →
      upvoteListInvariant db') ∧
    (∀ db uv0 db' b,
      upvoteListInvariant db →
      db.upvotes.Nodup →
      (∀ u ∈ db.users, u.upvotedFreets.Nodup) →
      uv0 ∈ db.upvotes →
      (∀ uv ∈ db.upvotes, uv.uvid = uv0.uvid → uv = uv0) →
      (∀ uv ∈ db.upvotes, uv.authorId = uv0.authorId → uv.freetId = uv0.freetId →
        uv = uv0) →
      UpvoteCollection.deleteOne db uv0.uvid uv0.authorId uv0.freetId =
        some (db', b) →
      upvoteListInvariant db') := by
  constructor
  · intro db freetId authorId newId date db' uv hinv hadd
    unfold UpvoteCollection.addOne at hadd
    cases hfind : UserCollection.findOneByUserId db authorId with
    | none => rw [hfind] at hadd; simp at hadd
    | some u0 =>
      rw [hfind] at hadd
      simp only [Option.some.injEq, Prod.mk.injEq] at hadd
      obtain ⟨hdb, -⟩ := hadd
      subst hdb
      intro w hw f
      simp only [saveUpvotedFreets, List.mem_map] at hw
      obtain ⟨u, hu, hwu⟩ := hw
      subst hwu
      have hbase := hinv u hu f
      by_cases huid : u.uid = authorId
      · simp only [if_pos huid]
        constructor
        · intro hf
          rcases List.mem_append.mp hf with hl | hr
          · obtain ⟨uv', hmem, ha, hfr⟩ := hbase.mp hl
            exact ⟨uv', List.mem_append_left _ hmem, ha, hfr⟩
          · refine ⟨_, List.mem_append_right _ (List.mem_singleton_self _),
              huid.symm, ?_⟩
            exact (List.mem_singleton.mp hr).symm
        · intro hex
          obtain ⟨uv', hmem, ha, hfr⟩ := hex
          rcases List.mem_append.mp hmem with hm | hm
          · exact List.mem_append_left _ (hbase.mpr ⟨uv', hm, ha, hfr⟩)
          · have huv' : uv' = ({ uvid := newId, freetId := freetId, authorId := authorId, dateCreated := date } : Upvote) :=
              List.mem_singleton.mp hm
            subst huv'
            exact List.mem_append_right _ (List.mem_singleton.mpr hfr.symm)
      · simp only [if_neg huid]
        constructor
        · intro hf
          obtain ⟨uv', hmem, ha, hfr⟩ := hbase.mp hf
          exact ⟨uv', List.mem_append_left _ hmem, ha, hfr⟩
        · intro hex
          obtain ⟨uv', hmem, ha, hfr⟩ := hex
          rcases List.mem_append.mp hmem with hm | hm
          · exact hbase.mpr ⟨uv', hm, ha, hfr⟩
          · have huv' : uv' = ({ uvid := newId, freetId := freetId, authorId := authorId, dateCreated := date } : Upvote) :=
              List.mem_singleton.mp hm
            subst huv'
            exact absurd ha.symm huid
  · intro db uv0 db' b hinv hnodupUv hnodupLists hmem hidUniq hpairUniq hdel
    unfold UpvoteCollection.deleteOne at hdel
    cases hfind : UserCollection.findOneByUserId db uv0.authorId with
    | none => rw [hfind] at hdel; simp at hdel
    | some u0 =>
      rw [hfind] at hdel
      dsimp only [] at hdel
      simp only [Option.some.injEq, Prod.mk.injEq] at hdel
      obtain ⟨hdb, -⟩ := hdel
      subst hdb
      have herase : eraseFirstUpvoteById db.upvotes uv0.uvid = db.upvotes.erase uv0 :=
        eraseFirstUpvoteById_eq_erase db.upvotes uv0 hidUniq
      intro w hw g
      simp only [upvoteModelDeleteOne, herase] at hw ⊢
      simp only [saveUpvotedFreets, List.mem_map] at hw
      obtain ⟨u, hu, hwu⟩ := hw
      subst hwu
      have hnodupL := hnodupLists u hu
      by_cases huid : u.uid = uv0.authorId
      · have hfmem : uv0.freetId ∈ u.upvotedFreets :=
          (hinv u hu uv0.freetId).mpr ⟨uv0, hmem, huid.symm, rfl⟩
        have hsplice : spliceOutFreet u.upvotedFreets uv0.freetId =
            u.upvotedFreets.erase uv0.freetId := spliceOutFreet_of_mem hfmem
        simp only [if_pos huid, hsplice]
        by_cases hg : g = uv0.freetId
        · subst hg
          constructor
          · intro hginerase
            exact absurd ((hnodupL.mem_erase_iff).mp hginerase).1 (by simp)
          · intro hex
            obtain ⟨uv', hm, ha, hfr⟩ := hex
            have huv'0 : uv' = uv0 :=
              hpairUniq uv' (List.erase_subset _ _ hm) (ha.trans huid) hfr
            subst huv'0
            exact absurd ((hnodupUv.mem_erase_iff).mp hm).1 (by simp)
        · constructor
          · intro hginerase
            have hgin : g ∈ u.upvotedFreets :=
              ((hnodupL.mem_erase_iff).mp hginerase).2
            obtain ⟨uv', hm, ha, hfr⟩ := (hinv u hu g).mp hgin
            have hne : uv' ≠ uv0 := fun he => hg (by rw [← hfr, he])
            exact ⟨uv', (hnodupUv.mem_erase_iff).mpr ⟨hne, hm⟩, ha, hfr⟩
          · intro hex
            obtain ⟨uv', hm, ha, hfr⟩ := hex
            have hgin : g ∈ u.upvotedFreets :=
              (hinv u hu g).mpr ⟨uv', List.erase_subset _ _ hm, ha, hfr⟩
            exact (hnodupL.mem_erase_iff).mpr ⟨hg, hgin⟩
      · simp only [if_neg huid]
        constructor
        · intro hgin
          obtain ⟨uv', hm, ha, hfr⟩ := (hinv u hu g).mp hgin
          have hne : uv' ≠ uv0 := fun he => huid (by rw [← ha, he])
          exact ⟨uv', (hnodupUv.mem_erase_iff).mpr ⟨hne, hm⟩, ha, hfr⟩
        · intro hex
          obtain ⟨uv', hm, ha, hfr⟩ := hex
          exact (hinv u hu g).mpr ⟨uv', List.erase_subset _ _ hm, ha, hfr⟩

/-- Store used as the witness input for the invariant claim: bob upvoted
freet 10, and the redundant list agrees with the stored records. -/
def exDb5 : DB := { users := [bob], freets := [freet10], upvotes := [upvote100] }

/-- Witness for `claim_C5_invariant_preserved`: adding an upvote and removing
the stored upvote on the concrete store both preserve the invariant. -/
theorem claim_C5_witness :
    (∃ db' uv, UpvoteCollection.addOne exDb5 11 2 101 8 = some (db', uv) ∧
      upvoteListInvariant db') ∧
    (∃ db' b, UpvoteCollection.deleteOne exDb5 100 2 10 = some (db', b) ∧
      upvoteListInvariant db') := by
  have hinv : upvoteListInvariant exDb5 := by
    intro u hu f
    simp only [exDb5, List.mem_singleton] at hu
    subst hu
    constructor
    · intro hf
      simp only [bob, List.mem_singleton] at hf
      subst hf
      exact ⟨upvote100, by simp [exDb5], rfl, rfl⟩
    · intro hex
      obtain ⟨uv, hm, ha, hfr⟩ := hex
      simp only [exDb5, List.mem_singleton] at hm
      subst hm
      simp only [bob, ← hfr, upvote100, List.mem_singleton]
  constructor
  · exact ⟨_, _, rfl,
      claim_C5_invariant_preserved.1 exDb5 11 2 101 8 _ _ hinv rfl⟩
  · exact ⟨_, _, rfl,
      claim_C5_invariant_preserved.2 exDb5 upvote100 _ _ hinv (by decide)
        (by decide) (by decide) (by decide) (by decide) rfl⟩
